import Mathlib

/-
Shallow embedding of the application-filling pipeline of the repository
(the apply-to-job action in src/index.ts).  Browser effects are modelled by
an explicit World record supplying the outcome of every external step, and
the pipeline is a pure function from the request payload and the World to
the returned result record together with a Trace of the observable effects
(session provisioning calls, fills, clicks, navigation, cleanup).

JavaScript strings are modelled by Lean String; the few string operations
the source uses (toLowerCase, substring test of a case-insensitive regex,
trim) are written over the underlying character list so that they evaluate
inside the kernel.  JavaScript truthiness of an optional string (undefined,
null or empty string are falsy) is modelled by the helper truthy.
-/

namespace JobApp

/-- Lower-cases a string character by character (model of toLowerCase). -/
def lowerStr (s : String) : String := ⟨s.data.map Char.toLower⟩

/-- Bool test that pat occurs as a contiguous segment of l. -/
def infixOfB (pat : List Char) : List Char → Bool
  | [] => pat.isEmpty
  | c :: rest => pat.isPrefixOf (c :: rest) || infixOfB pat rest

/-- Substring containment on strings (model of an unanchored regex literal test). -/
def strContains (s pat : String) : Bool := infixOfB pat.data s.data

/-- Whitespace trimming at both ends (model of String.prototype.trim). -/
def trimStr (s : String) : String :=
  ⟨((s.data.dropWhile Char.isWhitespace).reverse.dropWhile Char.isWhitespace).reverse⟩

/-- JavaScript truthiness of an optional string: undefined and the empty string are falsy. -/
def truthy : Option String → Bool
  | none => false
  | some s => !s.isEmpty

/-- Input payload of the apply-to-job action.  Every field is optional at
runtime (the payload arrives as parsed JSON); the TypeScript interface marks
url, name, email and linkedin as required but the code checks them by hand. -/
structure ApplyPayload where
  url : Option String
  name : Option String
  email : Option String
  linkedin : Option String
  resumePath : Option String
  resumeUrl : Option String

/-- Output record of the apply-to-job action. -/
structure ApplyToJobOutput where
  success : Bool
  message : String
  errors : Option (List String)
deriving DecidableEq

/-- Guard clause of the action: mirrors the check
if (!payload?.url || !payload.name || !payload.email || !payload.linkedin)
with the result negated (true means the request is accepted). -/
def validateInput : Option ApplyPayload → Bool
  | none => false
  | some p => truthy p.url && truthy p.name && truthy p.email && truthy p.linkedin

/-- Character list of the suffix /application. -/
def appSuffix : List Char := "/application".data

/-- Character list of the suffix /application/ . -/
def appSuffixSlash : List Char := "/application/".data

/-- URL normalizer: model of url.replace with the regex that removes one
trailing /application with an optional trailing slash.  The regex is
anchored at the end of the string, so it is equivalent to the two suffix
tests below, the longer suffix (with the slash) taking priority because the
optional slash is matched greedily. -/
def normalizeBaseUrl (url : String) : String :=
  if appSuffixSlash.isSuffixOf url.data then ⟨url.data.take (url.data.length - 13)⟩
  else if appSuffix.isSuffixOf url.data then ⟨url.data.take (url.data.length - 12)⟩
  else url

/-- Pair of URLs derived from the input URL by the normalizer. -/
def normalizePair (url : String) : String × String :=
  (normalizeBaseUrl url, normalizeBaseUrl url ++ "/application")

/-- Ordered list of content selectors tried by the context scraper. -/
def selectors : List String :=
  ["[data-ashby-body=\"true\"]", "main", ".ashby-job-description",
   ".job-description", "[role=\"main\"]", "article"]

/-- Abstract state of the job-description page as seen by the scraper:
find gives, for a selector, the innerText of its first match when the
locator count is positive; navError is the error thrown by navigation or
extraction, when one is thrown anywhere inside the guarded block. -/
structure ScrapePage where
  navError : Option String
  find : String → Option String
  bodyText : String

/-- Selector loop of the scraper: breaks on the first selector whose
locator count is positive, keeping that innerText whatever it is. -/
def scrapeLoop (find : String → Option String) : List String → String
  | [] => ""
  | s :: rest =>
    match find s with
    | some t => t
    | none => scrapeLoop find rest

/-- Context scraper: the guarded block sets jobDescription from the selector
loop, falling back to the body text when the loop left it empty; any error
inside the block is caught and leaves the empty string. -/
def scrapeJobDescription (p : ScrapePage) : String :=
  match p.navError with
  | some _ => ""
  | none =>
    let jd := scrapeLoop p.find selectors
    if jd.isEmpty then p.bodyText else jd

/-- Modelled from the spec for comparison with the code (refinement check of
the scraper): this version follows the specification words, trying the
selectors until one yields NON-EMPTY text and falling back to the body text
only when every selector fails to yield non-empty text. -/
def scrapeJobDescriptionSpec (p : ScrapePage) : String :=
  match p.navError with
  | some _ => ""
  | none =>
    match selectors.findSome? (fun s =>
      match p.find s with
      | some t => if t.isEmpty then none else some t
      | none => none) with
    | some t => t
    | none => p.bodyText

/-- Label element as seen by the field mapper: its visible text, its for
attribute (none when absent) and whether an input or textarea is nested
inside it. -/
structure LabelElem where
  text : String
  forAttr : Option String
  hasNestedControl : Bool

/-- Form page state consumed by the field mapper: the label elements in
document order, the test whether an id selector matches some control, and
the placeholder texts of the placeholder-bearing inputs and textareas in
document order. -/
structure FormPage where
  labels : List LabelElem
  idExists : String → Bool
  placeholders : List String

/-- Control resolved by the field mapper, together with the strategy that
found it. -/
inductive FillTarget where
  | byForId (id : String)
  | nestedInLabel (labelIdx : Nat)
  | byPlaceholder (inputIdx : Nat)
deriving DecidableEq

/-- Label scan of the field mapper: walks the label list in order and stops
at the first label whose text matches the pattern and whose control
resolves, via the for-target id when the for attribute is truthy, else via
a control nested inside the label.  A matching label whose control does not
resolve is passed over and the scan continues. -/
def findLabelTarget (pat : String → Bool) (idExists : String → Bool) :
    Nat → List LabelElem → Option FillTarget
  | _, [] => none
  | i, l :: rest =>
    if pat l.text then
      if truthy l.forAttr then
        if idExists (l.forAttr.getD "") then some (.byForId (l.forAttr.getD ""))
        else findLabelTarget pat idExists (i + 1) rest
      else
        if l.hasNestedControl then some (.nestedInLabel i)
        else findLabelTarget pat idExists (i + 1) rest
    else findLabelTarget pat idExists (i + 1) rest

/-- Placeholder scan of the field mapper: first placeholder-bearing control
whose placeholder text matches the pattern. -/
def findPlaceholderTarget (pat : String → Bool) : Nat → List String → Option FillTarget
  | _, [] => none
  | i, ph :: rest =>
    if pat ph then some (.byPlaceholder i) else findPlaceholderTarget pat (i + 1) rest

/-- Field mapper for one binding: label strategy first, placeholder strategy
only when no label match succeeded. -/
def fillFieldTarget (pat : String → Bool) (page : FormPage) : Option FillTarget :=
  match findLabelTarget pat page.idExists 0 page.labels with
  | some t => some t
  | none => findPlaceholderTarget pat 0 page.placeholders

/-- One declarative field binding: matcher pattern, the value to fill and
whether the binding is optional. -/
structure FieldBinding where
  pattern : String → Bool
  value : String
  optional : Bool

/-- Pattern of the regex matching name or full name, case-insensitive. -/
def namePattern (s : String) : Bool :=
  strContains (lowerStr s) "name" || strContains (lowerStr s) "full name"

/-- Pattern of the regex matching email, case-insensitive. -/
def emailPattern (s : String) : Bool := strContains (lowerStr s) "email"

/-- Pattern of the regex matching linkedin, case-insensitive. -/
def linkedinPattern (s : String) : Bool := strContains (lowerStr s) "linkedin"

/-- Ordered binding list of the field mapper; the linkedin binding is
marked optional in the source. -/
def fieldConfigs (p : ApplyPayload) : List FieldBinding :=
  [⟨namePattern, p.name.getD "", false⟩,
   ⟨emailPattern, p.email.getD "", false⟩,
   ⟨linkedinPattern, p.linkedin.getD "", true⟩]

/-- Resume source resolution: resumeFilePath starts as the payload path;
when resumeUrl is truthy the remote file is fetched and, on success, the
staging path /tmp/resume.pdf overwrites the local path; a fetch failure is
caught and leaves the local path in place. -/
def resolveResumeFilePath (resumePath resumeUrl : Option String) (fetchOk : Bool) :
    Option String :=
  if truthy resumeUrl then
    if fetchOk then some "/tmp/resume.pdf" else resumePath
  else resumePath

/-- Textarea element as seen by the question extractor: visibility, id
attribute, the textContent of the first matching label-for element when one
exists, the textContent of the ancestor label when one exists, and the
textContent of the nearest preceding sibling element when one exists. -/
structure TextareaElem where
  visible : Bool
  id : Option String
  labelForText : Option String
  ancestorLabelText : Option String
  precedingSiblingText : Option String

/-- Trimmed text of an optional node, the empty string when absent. -/
def trimOptText : Option String → String
  | some s => trimStr s
  | none => ""

/-- Label resolution chain of the question extractor: label-for (only when
the id attribute is truthy), then ancestor label, then nearest preceding
sibling, each step taken only while the accumulated text is still empty. -/
def resolveQuestionLabel (t : TextareaElem) : String :=
  let l1 := if truthy t.id then trimOptText t.labelForText else ""
  if !l1.isEmpty then l1
  else
    let l2 := trimOptText t.ancestorLabelText
    if !l2.isEmpty then l2
    else trimOptText t.precedingSiblingText

/-- Open-ended question extractor: walks the textareas in order and pushes
the resolved label of every visible one. -/
def extractQuestions : List TextareaElem → List String
  | [] => []
  | t :: rest =>
    if t.visible then resolveQuestionLabel t :: extractQuestions rest
    else extractQuestions rest

/-- Prompt built for one question from the scraped job description (the
template literal of the source, with its interpolations performed). -/
def buildPrompt (jobDescription label : String) : String :=
  "You are a world-class job applicant applying for a role.\n" ++
  "            Based on the following job description, please provide a concise and professional answer to the application question.\n" ++
  "            Your response must be plain text only, with no markdown formatting (like bolding or lists) and no em-dashes (—).\n\n" ++
  "            Job Description:\n            ---\n            " ++
  (if jobDescription.isEmpty then "Not available" else jobDescription) ++
  "\n            ---\n\n            Question: \"" ++ label ++ "\"\n\n            Answer:"

/-- Prompts built by the answer generator, one per extracted question, in
order; a prompt is built for every question whatever the later outcome of
the completion call. -/
def generationPrompts (jd : String) (qs : List String) : List String :=
  qs.map (fun q => buildPrompt jd q)

/-- Answer filled for question number i: the trimmed completion text when
the call succeeds and the trimmed text is non-empty; a per-question error
or an empty answer leaves the control unfilled. -/
def filledAnswer (gen : Nat → Except String String) (i : Nat) : Option String :=
  match gen i with
  | .error _ => none
  | .ok content =>
    let a := trimStr content
    if a.isEmpty then none else some a

/-- Post-submission page state consumed by the verifier: whether the page
navigated to the confirmation URL pattern inside the wait window, the inner
texts of the inline validation-error and alert-role elements, and whether
the on-page success-text pattern is present. -/
structure SubmitWorld where
  navigatedToSubmitted : Bool
  validationErrorTexts : List String
  successTextPresent : Bool

/-- Layered submission verifier of the source: confirmation navigation,
else inline validation markers, else on-page success text, else the
ambiguous outcome reported as a qualified success. -/
def verifySubmission (w : SubmitWorld) : ApplyToJobOutput :=
  if w.navigatedToSubmitted then
    ⟨true, "Application submitted successfully.", none⟩
  else if !w.validationErrorTexts.isEmpty then
    ⟨false, "Submission failed with validation errors.", some w.validationErrorTexts⟩
  else if w.successTextPresent then
    ⟨true, "Application submitted successfully.", none⟩
  else
    ⟨true, "Application submitted, but confirmation could not be verified.", none⟩

/-- Environment of one pipeline run: the outcome of every external step the
code awaits.  Steps that the source wraps in try/catch locally are given
their caught outcome (scrape.navError, fetchOk, gen); the four steps whose
errors reach the boundary handler are given as Except values. -/
structure World where
  createBrowser : Except String Unit
  connect : Except String Unit
  pageSetup : Except String Unit
  consoleErrors : List String
  scrape : ScrapePage
  appNav : Except String Unit
  page : FormPage
  fetchOk : Bool
  textareas : List TextareaElem
  gen : Nat → Except String String
  submitButtonCount : Nat
  submit : SubmitWorld

/-- Observable effects of one pipeline run. -/
structure Trace where
  createCalls : Nat
  browserConnected : Bool
  browserClosed : Bool
  baseUrl : String
  applicationUrl : String
  jobDescription : String
  fieldTargets : List (Option FillTarget)
  resumeSource : Option String
  questions : List String
  prompts : List String
  answers : List (Option String)
  reachedSubmission : Bool
  clickedSubmit : Bool
  verificationPerformed : Bool
deriving DecidableEq

/-- Trace before any effect happened. -/
def Trace.initial : Trace :=
  ⟨0, false, false, "", "", "", [], none, [], [], [], false, false, false⟩

/-- Result returned by the validation guard clause. -/
def missingFieldsResult : ApplyToJobOutput :=
  ⟨false, "Missing required fields", some ["URL, name, email, and linkedin are required"]⟩

/-- Result returned by the boundary catch handler: the error text first,
then the accumulated console errors. -/
def unexpectedErrorResult (e : String) (consoleErrors : List String) : ApplyToJobOutput :=
  ⟨false, "An unexpected error occurred during the process.", some (e :: consoleErrors)⟩

/-- Result returned when no submit control is located. -/
def submitNotFoundResult : ApplyToJobOutput :=
  ⟨false, "Could not find submit button.", some ["Submit button not found on page."]⟩

/-- Whole apply-to-job action as a function of the payload and the World.
The line that would click the located submit control is commented out in
the source, so no branch of this function sets clickedSubmit. -/
def applyToJob (payload : Option ApplyPayload) (w : World) : ApplyToJobOutput × Trace :=
  if !validateInput payload then (missingFieldsResult, Trace.initial)
  else
    let p := payload.getD ⟨none, none, none, none, none, none⟩
    let t0 : Trace := { Trace.initial with createCalls := 1 }
    match w.createBrowser with
    | .error e => (unexpectedErrorResult e w.consoleErrors, t0)
    | .ok _ =>
      match w.connect with
      | .error e => (unexpectedErrorResult e w.consoleErrors, t0)
      | .ok _ =>
        let t1 : Trace := { t0 with browserConnected := true }
        match w.pageSetup with
        | .error e => (unexpectedErrorResult e w.consoleErrors, { t1 with browserClosed := true })
        | .ok _ =>
          let baseUrl := normalizeBaseUrl (p.url.getD "")
          let applicationUrl := baseUrl ++ "/application"
          let jd := scrapeJobDescription w.scrape
          let t2 : Trace := { t1 with baseUrl := baseUrl, applicationUrl := applicationUrl,
                                      jobDescription := jd }
          match w.appNav with
          | .error e => (unexpectedErrorResult e w.consoleErrors, { t2 with browserClosed := true })
          | .ok _ =>
            let fills := (fieldConfigs p).map (fun b => fillFieldTarget b.pattern w.page)
            let resumeFilePath := resolveResumeFilePath p.resumePath p.resumeUrl w.fetchOk
            let qs := extractQuestions w.textareas
            let prompts := generationPrompts jd qs
            let answers := (List.range qs.length).map (fun i => filledAnswer w.gen i)
            let t3 : Trace := { t2 with fieldTargets := fills, resumeSource := resumeFilePath,
                                        questions := qs, prompts := prompts, answers := answers,
                                        reachedSubmission := true, browserClosed := true }
            if w.submitButtonCount > 0 then
              (verifySubmission w.submit, { t3 with verificationPerformed := true })
            else
              (submitNotFoundResult, t3)

/-- First error, if any, among the awaited steps whose exceptions reach the
boundary handler, in pipeline order. -/
def boundaryError (w : World) : Option String :=
  match w.createBrowser with
  | .error e => some e
  | .ok _ =>
    match w.connect with
    | .error e => some e
    | .ok _ =>
      match w.pageSetup with
      | .error e => some e
      | .ok _ =>
        match w.appNav with
        | .error e => some e
        | .ok _ => none

/-- Every message the pipeline can return. -/
def pipelineMessages : List String :=
  ["Missing required fields",
   "An unexpected error occurred during the process.",
   "Application submitted successfully.",
   "Submission failed with validation errors.",
   "Application submitted, but confirmation could not be verified.",
   "Could not find submit button."]

/-- Statement that the four boundary-reaching steps of a World all succeed. -/
def worldOk (w : World) : Prop :=
  w.createBrowser = .ok () ∧ w.connect = .ok () ∧ w.pageSetup = .ok () ∧ w.appNav = .ok ()

/-- Declarative resolution of one label element at its position: the target
the label scan would accept there, none when the label does not match or its
control does not resolve. -/
def labelResolution (idExists : String → Bool) (i : Nat) (l : LabelElem)
    (pat : String → Bool) : Option FillTarget :=
  if pat l.text then
    if truthy l.forAttr then
      if idExists (l.forAttr.getD "") then some (.byForId (l.forAttr.getD "")) else none
    else if l.hasNestedControl then some (.nestedInLabel i) else none
  else none

/-- Empty payload used as the impossible default after validation. -/
def emptyPayload : ApplyPayload := ⟨none, none, none, none, none, none⟩

/-- Sample request payload with every required field present. -/
def samplePayload : ApplyPayload :=
  ⟨some "https://jobs.example.com/co/role-id", some "Ada Lovelace", some "ada@example.com",
   some "https://linkedin.com/in/ada", none, none⟩

/-- Sample request payload whose email field is the empty string. -/
def invalidPayload : ApplyPayload :=
  ⟨some "https://jobs.example.com/co/role-id", some "Ada Lovelace", some "",
   some "https://linkedin.com/in/ada", none, none⟩

/-- Sample request payload carrying both a local resume path and a remote
resume URL. -/
def bothResumesPayload : ApplyPayload :=
  ⟨some "https://jobs.example.com/co/role-id", some "Ada Lovelace", some "ada@example.com",
   some "https://linkedin.com/in/ada", some "/home/user/resume.pdf",
   some "https://example.com/resume.pdf"⟩

/-- Sample job-description page where the main selector holds the text. -/
def sampleScrape : ScrapePage :=
  { navError := none
    find := fun s => if s = "main" then some "Great role" else none
    bodyText := "BODY" }

/-- Job-description page on which the first selector is present but empty
while the second selector holds text. -/
def scrapeCounterPage : ScrapePage :=
  { navError := none
    find := fun s =>
      if s = "[data-ashby-body=\"true\"]" then some ""
      else if s = "main" then some "Great job text" else none
    bodyText := "FULL PAGE TEXT" }

/-- Sample application form with one labelled control per strategy. -/
def samplePage : FormPage :=
  { labels := [⟨"Full Name *", some "name-input", false⟩, ⟨"Email", none, true⟩]
    idExists := fun i => i = "name-input"
    placeholders := ["Your LinkedIn URL"] }

/-- Sample textarea that is hidden. -/
def hiddenTextarea : TextareaElem := ⟨false, some "q0", some "Hidden question", none, none⟩

/-- Sample visible textarea with an explicit label-for association. -/
def visibleTextarea : TextareaElem := ⟨true, some "q1", some " Why us? ", none, none⟩

/-- Sample visible textarea on which every label strategy fails. -/
def unlabeledTextarea : TextareaElem := ⟨true, none, none, none, none⟩

/-- Baseline World on which every external step succeeds and submission
navigates to the confirmation URL. -/
def okWorld : World :=
  { createBrowser := .ok (), connect := .ok (), pageSetup := .ok ()
    consoleErrors := []
    scrape := sampleScrape
    appNav := .ok ()
    page := samplePage
    fetchOk := true
    textareas := [visibleTextarea]
    gen := fun _ => .ok "Because the role fits."
    submitButtonCount := 1
    submit := { navigatedToSubmitted := true, validationErrorTexts := [], successTextPresent := false } }

/-- World on which the submit control is present but submission does not
navigate and an inline alert is shown. -/
def alertWorld : World :=
  { okWorld with
      submit := { navigatedToSubmitted := false
                  validationErrorTexts := ["Email is required"]
                  successTextPresent := false } }

/-- World on which neither navigation nor alert nor success text appears. -/
def ambiguousWorld : World :=
  { okWorld with
      submit := { navigatedToSubmitted := false, validationErrorTexts := [],
                  successTextPresent := false } }

/-- World on which no submit control is present. -/
def noButtonWorld : World := { okWorld with submitButtonCount := 0 }

/-- World on which connecting to the remote browser throws. -/
def errWorld : World :=
  { okWorld with connect := .error "boom", consoleErrors := ["css failed to load"] }

/-- World on which the scraper navigation throws. -/
def scrapeErrWorld : World :=
  { okWorld with scrape := { navError := some "net::ERR_FAILED", find := fun _ => none,
                             bodyText := "" } }

end JobApp

namespace JobApp

/-- Every pipeline result is one of the four terminal record shapes. -/
theorem applyToJob_result_shape (payload : Option ApplyPayload) (w : World) :
    (applyToJob payload w).1 = missingFieldsResult ∨
    (∃ e, (applyToJob payload w).1 = unexpectedErrorResult e w.consoleErrors) ∨
    (applyToJob payload w).1 = submitNotFoundResult ∨
    (applyToJob payload w).1 = verifySubmission w.submit := by
  unfold applyToJob
  by_cases hv : validateInput payload
  · simp only [hv, Bool.not_true, Bool.false_eq_true, if_false]
    cases hcb : w.createBrowser with
    | error e => simp [hcb]; exact Or.inr (Or.inl ⟨e, rfl⟩)
    | ok u =>
      cases hcn : w.connect with
      | error e => simp [hcb, hcn]; exact Or.inr (Or.inl ⟨e, rfl⟩)
      | ok u2 =>
        cases hps : w.pageSetup with
        | error e => simp [hcb, hcn, hps]; exact Or.inr (Or.inl ⟨e, rfl⟩)
        | ok u3 =>
          cases han : w.appNav with
          | error e => simp [hcb, hcn, hps, han]; exact Or.inr (Or.inl ⟨e, rfl⟩)
          | ok u4 =>
            by_cases hsb : w.submitButtonCount > 0
            · simp [hcb, hcn, hps, han, hsb]
            · simp [hcb, hcn, hps, han, hsb]
  · simp [hv]

end JobApp

namespace JobApp

/-- Full evaluation of the pipeline on the path where every boundary step
succeeds. -/
theorem applyToJob_ok (payload : Option ApplyPayload) (w : World)
    (hv : validateInput payload = true) (hok : worldOk w) :
    applyToJob payload w =
      (let p := payload.getD emptyPayload
       let jd := scrapeJobDescription w.scrape
       let qs := extractQuestions w.textareas
       let t3 : Trace := { Trace.initial with
          createCalls := 1, browserConnected := true,
          baseUrl := normalizeBaseUrl (p.url.getD ""),
          applicationUrl := normalizeBaseUrl (p.url.getD "") ++ "/application",
          jobDescription := jd,
          fieldTargets := (fieldConfigs p).map (fun b => fillFieldTarget b.pattern w.page),
          resumeSource := resolveResumeFilePath p.resumePath p.resumeUrl w.fetchOk,
          questions := qs, prompts := generationPrompts jd qs,
          answers := (List.range qs.length).map (fun i => filledAnswer w.gen i),
          reachedSubmission := true, browserClosed := true }
       if w.submitButtonCount > 0 then
         (verifySubmission w.submit, { t3 with verificationPerformed := true })
       else (submitNotFoundResult, t3)) := by
  obtain ⟨h1, h2, h3, h4⟩ := hok
  simp [applyToJob, hv, h1, h2, h3, h4, emptyPayload]

end JobApp

namespace JobApp

/-- Appending /application to any string yields a string whose normalization
gives that string back. -/
theorem normalizeBaseUrl_append_application (b : String) :
    normalizeBaseUrl (b ++ "/application") = b := by
  have hdata : (b ++ "/application").data = b.data ++ appSuffix := String.data_append b _
  have h1 : appSuffixSlash.isSuffixOf (b.data ++ appSuffix) = false := by
    by_contra hc
    rw [Bool.not_eq_false] at hc
    have hs : appSuffixSlash <:+ b.data ++ appSuffix := List.isSuffixOf_iff_suffix.mp hc
    obtain ⟨t, ht⟩ := hs
    have e1 : (t ++ appSuffixSlash).reverse.head? = some '/' := by
      rw [List.reverse_append]; rfl
    have e2 : (b.data ++ appSuffix).reverse.head? = some 'n' := by
      rw [List.reverse_append]; rfl
    rw [ht, e2] at e1
    simp at e1
  have h2 : appSuffix.isSuffixOf (b.data ++ appSuffix) = true := by
    exact List.isSuffixOf_iff_suffix.mpr (List.suffix_append b.data appSuffix)
  have hlen : appSuffix.length = 12 := rfl
  have htake : (b.data ++ appSuffix).take ((b.data ++ appSuffix).length - 12) = b.data := by
    have hl : (b.data ++ appSuffix).length - 12 = b.data.length := by
      simp [List.length_append, hlen]
    rw [hl]
    exact List.take_left' rfl
  simp only [normalizeBaseUrl, hdata, h1, h2, Bool.false_eq_true, if_false, if_true, htake]

/-- Selector loop equals the first locator hit. -/
theorem scrapeLoop_eq_findSome (f : String → Option String) (ls : List String) :
    scrapeLoop f ls = (ls.findSome? f).getD "" := by
  induction ls with
  | nil => rfl
  | cons s rest ih =>
    cases h : f s <;> simp [scrapeLoop, List.findSome?_cons, h, ih]

/-- Label scan equals the first declarative label resolution, positions
counted from the start index. -/
theorem findLabelTarget_eq (pat : String → Bool) (ide : String → Bool) :
    ∀ (i : Nat) (ls : List LabelElem),
      findLabelTarget pat ide i ls =
        (ls.enumFrom i).findSome? (fun jl => labelResolution ide jl.1 jl.2 pat) := by
  intro i ls
  induction ls generalizing i with
  | nil => rfl
  | cons l rest ih =>
    simp only [findLabelTarget, List.enumFrom, List.findSome?_cons]
    cases hp : pat l.text with
    | false =>
      have hres : labelResolution ide i l pat = none := by simp [labelResolution, hp]
      simp [hp, hres, ih]
    | true =>
      cases hf : truthy l.forAttr with
      | false =>
        cases hn : l.hasNestedControl with
        | false =>
          have hres : labelResolution ide i l pat = none := by
            simp [labelResolution, hp, hf, hn]
          simp [hp, hf, hn, hres, ih]
        | true =>
          have hres : labelResolution ide i l pat = some (.nestedInLabel i) := by
            simp [labelResolution, hp, hf, hn]
          simp [hp, hf, hn, hres]
      | true =>
        cases he : ide (l.forAttr.getD "") with
        | false =>
          have hres : labelResolution ide i l pat = none := by
            simp [labelResolution, hp, hf, he]
          simp [hp, hf, he, hres, ih]
        | true =>
          have hres : labelResolution ide i l pat = some (.byForId (l.forAttr.getD "")) := by
            simp [labelResolution, hp, hf, he]
          simp [hp, hf, he, hres]

/-- Placeholder scan equals the first matching placeholder, positions
counted from the start index. -/
theorem findPlaceholderTarget_eq (pat : String → Bool) :
    ∀ (i : Nat) (ls : List String),
      findPlaceholderTarget pat i ls =
        (ls.enumFrom i).findSome?
          (fun jp => if pat jp.2 then some (.byPlaceholder jp.1) else none) := by
  intro i ls
  induction ls generalizing i with
  | nil => rfl
  | cons ph rest ih =>
    simp only [findPlaceholderTarget, List.enumFrom, List.findSome?_cons]
    cases hp : pat ph <;> simp [hp, ih]

/-- Question extractor equals label resolution mapped over the visible
textareas. -/
theorem extractQuestions_eq (ts : List TextareaElem) :
    extractQuestions ts = (ts.filter (fun t => t.visible)).map resolveQuestionLabel := by
  induction ts with
  | nil => rfl
  | cons t rest ih =>
    cases hv : t.visible <;> simp [extractQuestions, List.filter, hv, ih]

end JobApp

namespace JobApp

/-- C1: after submission is triggered, the result follows the fixed layered
check: confirmation navigation yields success, else inline validation
markers yield failure carrying the marker texts, else on-page success text
yields success, else the ambiguous outcome is reported as a qualified
success. -/
theorem C1_submission_layered_check (payload : Option ApplyPayload) (w : World)
    (hv : validateInput payload = true) (hok : worldOk w) (hb : w.submitButtonCount > 0) :
    (applyToJob payload w).1 =
      (if w.submit.navigatedToSubmitted then
        ⟨true, "Application submitted successfully.", none⟩
      else if !w.submit.validationErrorTexts.isEmpty then
        ⟨false, "Submission failed with validation errors.", some w.submit.validationErrorTexts⟩
      else if w.submit.successTextPresent then
        ⟨true, "Application submitted successfully.", none⟩
      else
        ⟨true, "Application submitted, but confirmation could not be verified.", none⟩) := by
  obtain ⟨h1, h2, h3, h4⟩ := hok
  simp [applyToJob, hv, h1, h2, h3, h4, hb, verifySubmission]

/-- Witness for C1 at a concrete run where an inline alert is present. -/
theorem C1_submission_layered_check_witness :
    validateInput (some samplePayload) = true ∧ alertWorld.submitButtonCount > 0 ∧
    (applyToJob (some samplePayload) alertWorld).1 =
      ⟨false, "Submission failed with validation errors.", some ["Email is required"]⟩ := by
  refine ⟨by decide, by decide, ?_⟩
  rw [C1_submission_layered_check (some samplePayload) alertWorld (by decide)
      ⟨rfl, rfl, rfl, rfl⟩ (by decide)]
  decide

/-- C2: the pipeline locates the submit control and, when present, proceeds
to outcome verification, yet no branch ever clicks it, because the click
statement is commented out in the source; when the control is absent the
failing result is returned without verification. -/
theorem C2_submit_never_clicked :
    ((applyToJob (some samplePayload) ambiguousWorld).2.reachedSubmission = true ∧
     (applyToJob (some samplePayload) ambiguousWorld).2.verificationPerformed = true ∧
     (applyToJob (some samplePayload) ambiguousWorld).2.clickedSubmit = false ∧
     (applyToJob (some samplePayload) ambiguousWorld).1.success = true) ∧
    ((applyToJob (some samplePayload) noButtonWorld).1 = submitNotFoundResult ∧
     (applyToJob (some samplePayload) noButtonWorld).2.verificationPerformed = false) := by
  decide

/-- C3: an invalid request is rejected with the descriptive error list and
the session-provisioning call is never reached. -/
theorem C3_invalid_input_no_session (payload : Option ApplyPayload) (w : World)
    (h : validateInput payload = false) :
    (applyToJob payload w).1.success = false ∧
    (applyToJob payload w).1.errors = some ["URL, name, email, and linkedin are required"] ∧
    (applyToJob payload w).2.createCalls = 0 := by
  simp [applyToJob, h, missingFieldsResult, Trace.initial]

/-- Witness for C3 at a payload with an empty email and at a missing
payload. -/
theorem C3_invalid_input_no_session_witness :
    (applyToJob (some invalidPayload) okWorld).2.createCalls = 0 ∧
    (applyToJob none okWorld).1.success = false := by
  exact ⟨(C3_invalid_input_no_session (some invalidPayload) okWorld (by decide)).2.2,
         (C3_invalid_input_no_session none okWorld (by decide)).1⟩

end JobApp

namespace JobApp

/-- C4: the pipeline always returns one of its fixed result records, a
boundary error is reported as a failing result whose errors list combines
the error text with the accumulated console errors, and a connected browser
is closed on every path. -/
theorem C4_no_escaping_exception (payload : Option ApplyPayload) (w : World) :
    (applyToJob payload w).1.message ∈ pipelineMessages ∧
    (∀ e, validateInput payload = true → boundaryError w = some e →
      (applyToJob payload w).1 = unexpectedErrorResult e w.consoleErrors) ∧
    ((applyToJob payload w).2.browserConnected = true →
      (applyToJob payload w).2.browserClosed = true) := by
  refine ⟨?_, ?_, ?_⟩
  · rcases applyToJob_result_shape payload w with h | ⟨e, h⟩ | h | h <;> rw [h]
    · simp [missingFieldsResult, pipelineMessages]
    · simp [unexpectedErrorResult, pipelineMessages]
    · simp [submitNotFoundResult, pipelineMessages]
    · unfold verifySubmission
      split_ifs <;> simp [pipelineMessages]
  · intro e hv hbe
    unfold boundaryError at hbe
    cases hcb : w.createBrowser with
    | error e2 =>
      rw [hcb] at hbe
      obtain rfl : e2 = e := Option.some.inj hbe
      simp [applyToJob, hv, hcb]
    | ok u =>
      rw [hcb] at hbe
      cases hcn : w.connect with
      | error e2 =>
        rw [hcn] at hbe
        obtain rfl : e2 = e := Option.some.inj hbe
        simp [applyToJob, hv, hcb, hcn]
      | ok u2 =>
        rw [hcn] at hbe
        cases hps : w.pageSetup with
        | error e2 =>
          rw [hps] at hbe
          obtain rfl : e2 = e := Option.some.inj hbe
          simp [applyToJob, hv, hcb, hcn, hps]
        | ok u3 =>
          rw [hps] at hbe
          cases han : w.appNav with
          | error e2 =>
            rw [han] at hbe
            obtain rfl : e2 = e := Option.some.inj hbe
            simp [applyToJob, hv, hcb, hcn, hps, han]
          | ok u4 =>
            rw [han] at hbe
            cases hbe
  · by_cases hv : validateInput payload
    · cases hcb : w.createBrowser with
      | error e => simp [applyToJob, hv, hcb, Trace.initial]
      | ok u =>
        cases hcn : w.connect with
        | error e => simp [applyToJob, hv, hcb, hcn, Trace.initial]
        | ok u2 =>
          cases hps : w.pageSetup with
          | error e => simp [applyToJob, hv, hcb, hcn, hps]
          | ok u3 =>
            cases han : w.appNav with
            | error e => simp [applyToJob, hv, hcb, hcn, hps, han]
            | ok u4 =>
              by_cases hsb : w.submitButtonCount > 0 <;>
                simp [applyToJob, hv, hcb, hcn, hps, han, hsb]
    · simp [applyToJob, hv, Trace.initial]

/-- Witness for C4 at a run whose browser connection throws. -/
theorem C4_no_escaping_exception_witness :
    (applyToJob (some samplePayload) errWorld).1 =
      unexpectedErrorResult "boom" ["css failed to load"] ∧
    ((applyToJob (some samplePayload) errWorld).2.browserConnected = true →
      (applyToJob (some samplePayload) errWorld).2.browserClosed = true) := by
  refine ⟨?_, (C4_no_escaping_exception (some samplePayload) errWorld).2.2⟩
  exact (C4_no_escaping_exception (some samplePayload) errWorld).2.1 "boom" (by decide) rfl

/-- C5 counterexample: with both resume sources provided and the remote
fetch succeeding, the staged remote file, not the explicit local path, is
the source used for the upload. -/
theorem C5_local_path_not_authoritative :
    resolveResumeFilePath (some "/home/user/resume.pdf")
        (some "https://example.com/resume.pdf") true = some "/tmp/resume.pdf" ∧
    resolveResumeFilePath (some "/home/user/resume.pdf")
        (some "https://example.com/resume.pdf") true ≠ some "/home/user/resume.pdf" ∧
    (applyToJob (some bothResumesPayload) okWorld).2.resumeSource = some "/tmp/resume.pdf" := by
  decide

/-- C5 amended: the fetched remote file is preferred whenever resumeUrl is
set and the fetch succeeds; the local path is used only when resumeUrl is
falsy or the fetch fails. -/
theorem C5_remote_fetch_preferred (rp ru : Option String) (fetchOk : Bool) :
    (truthy ru = true → fetchOk = true →
      resolveResumeFilePath rp ru fetchOk = some "/tmp/resume.pdf") ∧
    (truthy ru = false → resolveResumeFilePath rp ru fetchOk = rp) ∧
    (fetchOk = false → resolveResumeFilePath rp ru fetchOk = rp) := by
  unfold resolveResumeFilePath
  refine ⟨fun h1 h2 => by simp [h1, h2], fun h1 => by simp [h1], fun h1 => by simp [h1]⟩

/-- Witness for C5 amended at concrete resume sources. -/
theorem C5_remote_fetch_preferred_witness :
    resolveResumeFilePath (some "/a.pdf") (some "https://r/x.pdf") true = some "/tmp/resume.pdf" ∧
    resolveResumeFilePath (some "/a.pdf") none true = some "/a.pdf" ∧
    resolveResumeFilePath (some "/a.pdf") (some "https://r/x.pdf") false = some "/a.pdf" := by
  exact ⟨(C5_remote_fetch_preferred _ _ _).1 (by decide) rfl,
         (C5_remote_fetch_preferred _ _ _).2.1 (by decide),
         (C5_remote_fetch_preferred _ _ _).2.2 rfl⟩

end JobApp

namespace JobApp

/-- Strings ending in neither suffix are left unchanged by the normalizer. -/
theorem normalizeBaseUrl_of_no_suffix (s : String)
    (h1 : appSuffixSlash.isSuffixOf s.data = false)
    (h2 : appSuffix.isSuffixOf s.data = false) : normalizeBaseUrl s = s := by
  unfold normalizeBaseUrl
  rw [h1, h2]
  simp

/-- C6 counterexample: on a URL whose base part itself ends in /application,
normalizing the produced baseUrl again yields a different pair, so the
claimed unconditional idempotence fails. -/
theorem C6_renormalize_base_changes_pair :
    normalizePair "https://jobs.example.com/co/application/application" =
      ("https://jobs.example.com/co/application",
       "https://jobs.example.com/co/application/application") ∧
    normalizePair (normalizePair "https://jobs.example.com/co/application/application").1 ≠
      normalizePair "https://jobs.example.com/co/application/application" := by
  decide

/-- C6 amended: renormalizing the produced applicationUrl always yields the
same pair; renormalizing the produced baseUrl yields the same pair whenever
that baseUrl does not itself end in /application or /application/ ; the two
example URLs both normalize to the example applicationUrl. -/
theorem C6_normalization_stability (url : String) :
    normalizePair (normalizePair url).2 = normalizePair url ∧
    (appSuffixSlash.isSuffixOf (normalizePair url).1.data = false →
     appSuffix.isSuffixOf (normalizePair url).1.data = false →
     normalizePair (normalizePair url).1 = normalizePair url) ∧
    (normalizePair "https://jobs.example.com/co/role-id").2 =
      "https://jobs.example.com/co/role-id/application" ∧
    (normalizePair "https://jobs.example.com/co/role-id/application").2 =
      "https://jobs.example.com/co/role-id/application" := by
  refine ⟨?_, ?_, by decide, by decide⟩
  · show normalizePair (normalizeBaseUrl url ++ "/application") = normalizePair url
    unfold normalizePair
    rw [normalizeBaseUrl_append_application]
  · intro h1 h2
    simp only [normalizePair] at h1 h2
    have hbb : normalizeBaseUrl (normalizeBaseUrl url) = normalizeBaseUrl url :=
      normalizeBaseUrl_of_no_suffix _ h1 h2
    show normalizePair (normalizeBaseUrl url) = normalizePair url
    unfold normalizePair
    rw [hbb]

/-- Witness for C6 amended at the example base URL. -/
theorem C6_normalization_stability_witness :
    normalizePair (normalizePair "https://jobs.example.com/co/role-id").1 =
      normalizePair "https://jobs.example.com/co/role-id" ∧
    normalizePair (normalizePair "https://jobs.example.com/co/role-id").2 =
      normalizePair "https://jobs.example.com/co/role-id" := by
  exact ⟨(C6_normalization_stability _).2.1 (by decide) (by decide),
         (C6_normalization_stability _).1⟩

end JobApp

namespace JobApp

/-- C7: for one binding the label scan is tried first and equals the first
successful declarative label resolution; the placeholder scan is consulted
only when no label match succeeded; a binding with no target is simply
skipped while the pipeline still reaches the submission stage. -/
theorem C7_matching_priority (pat : String → Bool) (page : FormPage)
    (payload : Option ApplyPayload) (w : World) :
    (fillFieldTarget pat page =
      (match page.labels.enum.findSome?
          (fun jl => labelResolution page.idExists jl.1 jl.2 pat) with
       | some t => some t
       | none =>
          page.placeholders.enum.findSome?
            (fun jp => if pat jp.2 then some (.byPlaceholder jp.1) else none))) ∧
    (∀ t, page.labels.enum.findSome?
        (fun jl => labelResolution page.idExists jl.1 jl.2 pat) = some t →
      fillFieldTarget pat page = some t) ∧
    (validateInput payload = true → worldOk w →
      (applyToJob payload w).2.reachedSubmission = true ∧
      (applyToJob payload w).2.fieldTargets =
        (fieldConfigs (payload.getD emptyPayload)).map
          (fun b => fillFieldTarget b.pattern w.page)) := by
  have hchar : fillFieldTarget pat page =
      (match page.labels.enum.findSome?
          (fun jl => labelResolution page.idExists jl.1 jl.2 pat) with
       | some t => some t
       | none =>
          page.placeholders.enum.findSome?
            (fun jp => if pat jp.2 then some (.byPlaceholder jp.1) else none)) := by
    unfold fillFieldTarget
    rw [findLabelTarget_eq, findPlaceholderTarget_eq]
    rfl
  refine ⟨hchar, ?_, ?_⟩
  · intro t ht
    rw [hchar, ht]
  · intro hv hok
    rw [applyToJob_ok payload w hv hok]
    by_cases hsb : w.submitButtonCount > 0 <;> simp [hsb]

/-- Witness for C7 at the sample form: the name binding resolves through the
label for-target, the email binding through a nested control, the linkedin
binding through the placeholder fallback. -/
theorem C7_matching_priority_witness :
    fillFieldTarget namePattern samplePage = some (.byForId "name-input") ∧
    (applyToJob (some samplePayload) okWorld).2.fieldTargets =
      [some (.byForId "name-input"), some (.nestedInLabel 1), some (.byPlaceholder 0)] ∧
    (applyToJob (some samplePayload) okWorld).2.reachedSubmission = true := by
  have h := C7_matching_priority namePattern samplePage (some samplePayload) okWorld
  have h3 := h.2.2 (by decide) ⟨rfl, rfl, rfl, rfl⟩
  refine ⟨?_, ?_, h3.1⟩
  · rw [h.1]; decide
  · rw [h3.2]; decide

end JobApp

namespace JobApp

/-- C8 counterexample: the scraper breaks on the first selector whose
locator matches even when its text is empty, so a later selector holding
text is never consulted; the spec-following version returns that text. -/
theorem C8_first_present_selector_breaks :
    scrapeJobDescription scrapeCounterPage = "FULL PAGE TEXT" ∧
    scrapeJobDescriptionSpec scrapeCounterPage = "Great job text" ∧
    scrapeJobDescription scrapeCounterPage ≠ scrapeJobDescriptionSpec scrapeCounterPage := by
  decide

/-- C8 amended: the scraper takes the text of the first selector present on
the page, falling back to the full page text when no selector is present or
the selected text is empty; a scraping error is caught, yields the empty
context, and the pipeline still reaches submission and verification. -/
theorem C8_scraper_fallback_policy (p : ScrapePage)
    (payload : Option ApplyPayload) (w : World) :
    (p.navError = none →
      scrapeJobDescription p =
        (match selectors.findSome? p.find with
         | some t => if t.isEmpty then p.bodyText else t
         | none => p.bodyText)) ∧
    (∀ e, p.navError = some e → scrapeJobDescription p = "") ∧
    (∀ e, validateInput payload = true → worldOk w → w.scrape.navError = some e →
      w.submitButtonCount > 0 →
      (applyToJob payload w).1 = verifySubmission w.submit ∧
      (applyToJob payload w).2.jobDescription = "" ∧
      (applyToJob payload w).2.reachedSubmission = true) := by
  refine ⟨?_, ?_, ?_⟩
  · intro h
    unfold scrapeJobDescription
    rw [h, scrapeLoop_eq_findSome]
    cases hf : selectors.findSome? p.find with
    | none =>
      have he : ("".isEmpty) = true := rfl
      simp [he]
    | some t => by_cases ht : t.isEmpty <;> simp [ht]
  · intro e h
    unfold scrapeJobDescription
    rw [h]
  · intro e hv hok hse hsb
    have hjd : scrapeJobDescription w.scrape = "" := by
      unfold scrapeJobDescription
      rw [hse]
    rw [applyToJob_ok payload w hv hok]
    simp [hsb, hjd]

/-- Witness for C8 amended: the sample page scrapes through a selector, and
a run whose scraper throws still reaches verification with empty context. -/
theorem C8_scraper_fallback_policy_witness :
    scrapeJobDescription sampleScrape = "Great role" ∧
    scrapeJobDescription scrapeErrWorld.scrape = "" ∧
    (applyToJob (some samplePayload) scrapeErrWorld).1 =
      ⟨true, "Application submitted successfully.", none⟩ ∧
    (applyToJob (some samplePayload) scrapeErrWorld).2.jobDescription = "" := by
  have h := C8_scraper_fallback_policy sampleScrape (some samplePayload) scrapeErrWorld
  have h2 := h.2.2 "net::ERR_FAILED" (by decide) ⟨rfl, rfl, rfl, rfl⟩ rfl (by decide)
  refine ⟨?_, ?_, ?_, h2.2.1⟩
  · rw [h.1 rfl]; decide
  · exact (C8_scraper_fallback_policy scrapeErrWorld.scrape (some samplePayload)
      scrapeErrWorld).2.1 "net::ERR_FAILED" rfl
  · rw [h2.1]; decide

end JobApp

namespace JobApp

/-- C9: the extractor retains exactly the visible textareas; the label chain
tries label-for, then ancestor label, then preceding sibling, in order; when
every strategy fails the question is still queued with the empty label and a
prompt is built for it; the pipeline feeds the extracted questions to the
generator. -/
theorem C9_question_extraction (t : TextareaElem) (ts : List TextareaElem)
    (jd : String) (payload : Option ApplyPayload) (w : World) :
    (extractQuestions ts = (ts.filter (fun x => x.visible)).map resolveQuestionLabel) ∧
    (truthy t.id = true → (trimOptText t.labelForText).isEmpty = false →
      resolveQuestionLabel t = trimOptText t.labelForText) ∧
    ((if truthy t.id then trimOptText t.labelForText else "").isEmpty = true →
      (trimOptText t.ancestorLabelText).isEmpty = false →
      resolveQuestionLabel t = trimOptText t.ancestorLabelText) ∧
    ((if truthy t.id then trimOptText t.labelForText else "").isEmpty = true →
      (trimOptText t.ancestorLabelText).isEmpty = true →
      resolveQuestionLabel t = trimOptText t.precedingSiblingText) ∧
    (t.visible = true →
      (if truthy t.id then trimOptText t.labelForText else "").isEmpty = true →
      (trimOptText t.ancestorLabelText).isEmpty = true →
      (trimOptText t.precedingSiblingText).isEmpty = true →
      extractQuestions [t] = [""] ∧
      generationPrompts jd (extractQuestions [t]) = [buildPrompt jd ""]) ∧
    (validateInput payload = true → worldOk w →
      (applyToJob payload w).2.questions = extractQuestions w.textareas ∧
      (applyToJob payload w).2.prompts =
        generationPrompts (scrapeJobDescription w.scrape) (extractQuestions w.textareas)) := by
  refine ⟨extractQuestions_eq ts, ?_, ?_, ?_, ?_, ?_⟩
  · intro h1 h2
    simp [resolveQuestionLabel, h1, h2]
  · intro h1 h2
    simp [resolveQuestionLabel, h1, h2]
  · intro h1 h2
    simp [resolveQuestionLabel, h1, h2]
  · intro hv h1 h2 h3
    have hr : resolveQuestionLabel t = "" := by
      simp [resolveQuestionLabel, h1, h2]
      rw [String.isEmpty_iff] at h3
      exact h3
    constructor
    · simp [extractQuestions, hv, hr]
    · simp [extractQuestions, hv, hr, generationPrompts]
  · intro hv hok
    rw [applyToJob_ok payload w hv hok]
    by_cases hsb : w.submitButtonCount > 0 <;> simp [hsb]

/-- Witness for C9: a hidden textarea yields no question, the visible
labelled textarea yields its trimmed label text, and a visible unlabeled
textarea is queued with the empty label and gets a prompt. -/
theorem C9_question_extraction_witness :
    extractQuestions [hiddenTextarea] = [] ∧
    extractQuestions [visibleTextarea] = ["Why us?"] ∧
    resolveQuestionLabel visibleTextarea = "Why us?" ∧
    extractQuestions [unlabeledTextarea] = [""] ∧
    generationPrompts "Great role" (extractQuestions [unlabeledTextarea]) =
      [buildPrompt "Great role" ""] ∧
    (applyToJob (some samplePayload) okWorld).2.questions = ["Why us?"] := by
  have h := C9_question_extraction unlabeledTextarea [hiddenTextarea] "Great role"
    (some samplePayload) okWorld
  have h5 := h.2.2.2.2.1 rfl (by decide) (by decide) (by decide)
  have h6 := (C9_question_extraction visibleTextarea [hiddenTextarea] "Great role"
    (some samplePayload) okWorld).2.1 (by decide) (by decide)
  have h7 := (C9_question_extraction visibleTextarea [visibleTextarea] "Great role"
    (some samplePayload) okWorld).2.2.2.2.2 (by decide) ⟨rfl, rfl, rfl, rfl⟩
  refine ⟨by decide, ?_, ?_, h5.1, h5.2, ?_⟩
  · decide
  · rw [h6]; decide
  · rw [h7.1]; decide

/-- C10: every failing result carries a non-empty errors list and every
successful result omits the errors field. -/
theorem C10_result_errors_invariant (payload : Option ApplyPayload) (w : World) :
    ((applyToJob payload w).1.success = false →
      ∃ es, (applyToJob payload w).1.errors = some es ∧ es ≠ []) ∧
    ((applyToJob payload w).1.success = true → (applyToJob payload w).1.errors = none) := by
  rcases applyToJob_result_shape payload w with h | ⟨e, h⟩ | h | h <;> rw [h]
  · exact ⟨fun _ => ⟨_, rfl, by decide⟩, fun hs => by simp [missingFieldsResult] at hs⟩
  · exact ⟨fun _ => ⟨e :: w.consoleErrors, rfl, by simp⟩,
           fun hs => by simp [unexpectedErrorResult] at hs⟩
  · exact ⟨fun _ => ⟨_, rfl, by decide⟩, fun hs => by simp [submitNotFoundResult] at hs⟩
  · unfold verifySubmission
    split_ifs with h1 h2 h3
    · exact ⟨fun hs => by simp at hs, fun _ => rfl⟩
    · refine ⟨fun _ => ⟨w.submit.validationErrorTexts, rfl, ?_⟩, fun hs => by simp at hs⟩
      intro hnil
      rw [hnil] at h2
      simp at h2
    · exact ⟨fun hs => by simp at hs, fun _ => rfl⟩
    · exact ⟨fun hs => by simp at hs, fun _ => rfl⟩

/-- Witness for C10 at a confirmed run and at a validation-failed run. -/
theorem C10_result_errors_invariant_witness :
    (applyToJob (some samplePayload) okWorld).1.errors = none ∧
    (∃ es, (applyToJob (some samplePayload) alertWorld).1.errors = some es ∧ es ≠ []) := by
  exact ⟨(C10_result_errors_invariant (some samplePayload) okWorld).2 (by decide),
         (C10_result_errors_invariant (some samplePayload) alertWorld).1 (by decide)⟩

end JobApp
